import Mathlib

/-!
Verification of the Ace Invaders blackjack engine (cards, hand valuation,
dealer/session logic, basic-strategy advisor, house-edge estimator) against
its natural-language specification.  Python source files are shallowly
embedded: Python ints become Nat/Int, floats become exact rationals,
methods returning None on failure become Option, and `random.shuffle` is
modelled by an explicit permutation argument.
-/

namespace AceInvaders

/-! ## Card model (src/game/cards.py, class Card) -/

inductive Suit
  | Hearts | Diamonds | Clubs | Spades
deriving DecidableEq, Fintype

inductive Rank
  | r2 | r3 | r4 | r5 | r6 | r7 | r8 | r9 | r10 | J | Q | K | A
deriving DecidableEq, Fintype

structure Card where
  suit : Suit
  rank : Rank
deriving DecidableEq, Fintype

/-- Card.__init__: value 11 for an ace, 10 for J/Q/K, the numeral otherwise. -/
def Rank.value : Rank → Nat
  | .A => 11
  | .J => 10
  | .Q => 10
  | .K => 10
  | .r10 => 10
  | .r9 => 9
  | .r8 => 8
  | .r7 => 7
  | .r6 => 6
  | .r5 => 5
  | .r4 => 4
  | .r3 => 3
  | .r2 => 2

def Card.value (c : Card) : Nat := c.rank.value

/-- Card.get_count_value: Hi-Lo tag of a card. -/
def Card.get_count_value (c : Card) : Int :=
  if [Rank.r2, Rank.r3, Rank.r4, Rank.r5, Rank.r6].contains c.rank then 1
  else if [Rank.r10, Rank.J, Rank.Q, Rank.K, Rank.A].contains c.rank then -1
  else 0

/-! ## Hand valuation

Two distinct implementations live in the source: `Hand.get_value`
(src/game/players.py) assigns 11 or 1 to each ace greedily one at a time,
while `GameSession.hand_value` (src/game/game_session.py), the dealer's
`get_hand_value` and `display_hand` (cards.py) sum with every ace as 11 and
then subtract 10 per ace while the total exceeds 21. -/

/-- Number of aces in a hand (the `aces` counters of the Python code). -/
def aceCount (cards : List Card) : Nat :=
  cards.countP (fun c => decide (c.rank = Rank.A))

/-- Sum of the values of the non-ace cards (first pass of Hand.get_value). -/
def nonAceSum (cards : List Card) : Nat :=
  ((cards.filter (fun c => decide (c.rank ≠ Rank.A))).map Card.value).sum

/-- Sum of all card values with every ace counted as 11
(`sum(card.value for card in hand)`). -/
def totalValue (cards : List Card) : Nat :=
  (cards.map Card.value).sum

/-- The ace loop of Hand.get_value: for each ace add 11 if that keeps the
running total at most 21, else add 1. -/
def addAces : Nat → Nat → Nat
  | v, 0 => v
  | v, a + 1 => if v + 11 ≤ 21 then addAces (v + 11) a else addAces (v + 1) a

/-- Hand.get_value (src/game/players.py lines 32-57). -/
def Hand.get_value (cards : List Card) : Nat :=
  addAces (nonAceSum cards) (aceCount cards)

/-- The `while value > 21 and aces:` loop shared by GameSession.hand_value
and get_basic_strategy_move: returns the adjusted value together with the
number of aces still counted as 11. -/
def adjustLoop : Nat → Nat → Nat × Nat
  | v, 0 => (v, 0)
  | v, a + 1 => if 21 < v then adjustLoop (v - 10) a else (v, a + 1)

/-- GameSession.hand_value (src/game/game_session.py lines 582-592). -/
def hand_value (cards : List Card) : Nat :=
  (adjustLoop (totalValue cards) (aceCount cards)).1

/-- Hand.is_soft (src/game/players.py lines 72-90): at least one ace and the
non-ace total plus 11 stays at most 21. -/
def Hand.is_soft (cards : List Card) : Bool :=
  decide (0 < aceCount cards) && decide (nonAceSum cards + 11 ≤ 21)

/-- GameSession.is_soft_hand (src/game/game_session.py lines 716-726):
`alt_value = value - aces*10` counts every ace as 1; soft iff adding back 10
for one ace stays at most 21. -/
def is_soft_hand (cards : List Card) : Bool :=
  let value := totalValue cards
  let aces := aceCount cards
  let alt_value := value - aces * 10
  decide (0 < aces) && decide (alt_value + 10 ≤ 21)

/-- GameSession.check_blackjack: exactly two cards valued 21. -/
def check_blackjack (cards : List Card) : Bool :=
  decide (cards.length = 2) && decide (hand_value cards = 21)

/-- The hand 10♥ A♠ A♦, on which the two valuation algorithms disagree. -/
def tenAceAce : List Card :=
  [Card.mk Suit.Hearts Rank.r10, Card.mk Suit.Spades Rank.A,
   Card.mk Suit.Diamonds Rank.A]

/-- C1: on the hand 10♥ A♠ A♦, Hand.get_value busts at 22 (its first ace
greedily takes 11 with a second ace still to add), while the subtract-10
algorithm of GameSession.hand_value returns 12 — the maximum non-busting
interpretation, which exists since counting both aces as 1 gives 12 ≤ 21. -/
theorem getValue_neq_handValue_on_ten_ace_ace :
    Hand.get_value tenAceAce = 22 ∧ hand_value tenAceAce = 12 ∧
    Hand.get_value tenAceAce ≠ hand_value tenAceAce := by
  refine ⟨rfl, rfl, ?_⟩
  decide

/-! ## Shoe model (src/game/cards.py, class Deck) -/

def suits : List Suit := [Suit.Hearts, Suit.Diamonds, Suit.Clubs, Suit.Spades]

def ranks : List Rank :=
  [Rank.r2, Rank.r3, Rank.r4, Rank.r5, Rank.r6, Rank.r7, Rank.r8, Rank.r9,
   Rank.r10, Rank.J, Rank.Q, Rank.K, Rank.A]

/-- One pass of Deck.build_deck's inner loops: 52 cards, suit-major. -/
def one_deck : List Card :=
  suits.flatMap (fun s => ranks.map (fun r => Card.mk s r))

/-- Deck.build_deck (src/game/cards.py lines 91-99): the outer
`for _ in range(number_of_decks)` loop appends one 52-card pass per deck. -/
def build_deck : Nat → List Card
  | 0 => []
  | n + 1 => one_deck ++ build_deck n

structure Deck where
  number_of_decks : Nat
  running_count : Int
  cards : List Card
  initial_cards : Nat
  cut_card_position : Nat

/-- Deck.__init__ after its deck-count validation (1 ≤ n ≤ 8):
builds the shoe, records its size and places the cut card at
`int(initial_cards * (1 - cut_card_percent))` (truncation = floor here
since the operand is nonnegative for the percentages the game uses). -/
def Deck.init (number_of_decks : Nat) (cut_card_percent : ℚ) : Deck :=
  let cards := build_deck number_of_decks
  { number_of_decks := number_of_decks
    running_count := 0
    cards := cards
    initial_cards := cards.length
    cut_card_position := (((cards.length : ℚ) * (1 - cut_card_percent)).floor).toNat }

/-- Deck.shuffle (src/game/cards.py lines 101-104): permutes the cards that
are currently in the shoe (random.shuffle, modelled by an arbitrary
permutation function) and resets the running count.  It does not rebuild
the shoe. -/
def Deck.shuffle (d : Deck) (permute : List Card → List Card) : Deck :=
  { d with cards := permute d.cards, running_count := 0 }

/-- Deck.deal_card (src/game/cards.py lines 106-125): `none` when the shoe
is empty (Python returns None), otherwise pops the front card, adding its
Hi-Lo tag to the running count when dealt face up. -/
def Deck.deal_card (d : Deck) (face_up : Bool) : Option (Card × Deck) :=
  match d.cards with
  | [] => none
  | card :: rest =>
    some (card,
      { d with
        cards := rest
        running_count :=
          if face_up then d.running_count + card.get_count_value
          else d.running_count })

/-- Deck.cards_left. -/
def Deck.cards_left (d : Deck) : Nat := d.cards.length

/-- Deck.is_cut_card. -/
def Deck.is_cut_card (d : Deck) : Bool :=
  decide (d.cards_left ≤ d.cut_card_position)

/-- Test scaffolding: deal `n` cards face up, keeping the shoe unchanged
should it run empty (which the theorems below never reach). -/
def deal_n : Deck → Nat → Deck
  | d, 0 => d
  | d, k + 1 =>
    match d.deal_card true with
    | none => d
    | some (_, d') => deal_n d' k

/-- C3: the reshuffle performed at the cut card is Deck.shuffle, which only
permutes the cards still in the shoe.  Starting from a fresh single-deck
shoe (52 cards, cut card at 13) and dealing 10 cards reaches a shoe of 42
cards; shuffling (with the identity permutation, one legal outcome of
random.shuffle) resets the running count to 0 but leaves 42 cards — it does
not restore decks*52 = 52. -/
theorem shuffle_does_not_restore_shoe :
    ((deal_n (Deck.init 1 (3/4)) 10).shuffle id).cards_left = 42 ∧
    ((deal_n (Deck.init 1 (3/4)) 10).shuffle id).running_count = 0 ∧
    ((deal_n (Deck.init 1 (3/4)) 10).shuffle id).cards_left ≠
      (deal_n (Deck.init 1 (3/4)) 10).number_of_decks * 52 := by
  refine ⟨?_, ?_, ?_⟩ <;> decide

/-- C4: dealing from an empty shoe yields no card (`none`, the EmptyShoe
condition the caller sees); dealing from a non-empty shoe removes and
returns the front card, updating the running count for a face-up deal. -/
theorem deal_card_front_or_empty (d : Deck) (face_up : Bool) :
    (d.cards = [] → d.deal_card face_up = none) ∧
    (∀ c rest, d.cards = c :: rest →
      d.deal_card face_up =
        some (c,
          { d with
            cards := rest
            running_count :=
              if face_up then d.running_count + c.get_count_value
              else d.running_count })) := by
  constructor
  · intro h
    simp [Deck.deal_card, h]
  · intro c rest h
    simp [Deck.deal_card, h]

/-- A shoe with no cards left. -/
def emptyShoe : Deck :=
  { number_of_decks := 1, running_count := 3, cards := [],
    initial_cards := 52, cut_card_position := 13 }

/-- A shoe holding exactly the cards 5♥ then K♠. -/
def twoCardShoe : Deck :=
  { number_of_decks := 1, running_count := 0,
    cards := [Card.mk Suit.Hearts Rank.r5, Card.mk Suit.Spades Rank.K],
    initial_cards := 52, cut_card_position := 13 }

/-- Witness for C4 at concrete shoes: the empty shoe deals `none`; the
two-card shoe deals its front card 5♥ (Hi-Lo +1) and keeps K♠. -/
theorem deal_card_front_or_empty_witness :
    emptyShoe.deal_card true = none ∧
    twoCardShoe.deal_card true =
      some (Card.mk Suit.Hearts Rank.r5,
        { twoCardShoe with
          cards := [Card.mk Suit.Spades Rank.K]
          running_count := 1 }) :=
  ⟨(deal_card_front_or_empty emptyShoe true).1 rfl,
   by
    have h := (deal_card_front_or_empty twoCardShoe true).2
      (Card.mk Suit.Hearts Rank.r5) [Card.mk Suit.Spades Rank.K] rfl
    simpa [Card.get_count_value] using h⟩

/-- C10: the Hi-Lo tag of every card is +1 exactly on ranks 2-6, −1 exactly
on 10, J, Q, K, A and 0 otherwise, and the tags of a freshly built shoe of
any number of decks sum to 0. -/
theorem hi_lo_tags_balance :
    (∀ c : Card,
      Card.get_count_value c =
        (if c.rank = Rank.r2 ∨ c.rank = Rank.r3 ∨ c.rank = Rank.r4 ∨
            c.rank = Rank.r5 ∨ c.rank = Rank.r6 then 1
         else if c.rank = Rank.r10 ∨ c.rank = Rank.J ∨ c.rank = Rank.Q ∨
            c.rank = Rank.K ∨ c.rank = Rank.A then -1
         else 0)) ∧
    ∀ n : Nat, ((build_deck n).map Card.get_count_value).sum = 0 := by
  constructor
  · decide
  · intro n
    induction n with
    | zero => rfl
    | succ k ih =>
      have hone : (one_deck.map Card.get_count_value).sum = 0 := by decide
      simp [build_deck, List.map_append, List.sum_append, hone, ih]

/-! ## Basic strategy advisor (src/game/players.py, get_basic_strategy_move)

The Python function computes `hand_value` and the residual ace count with
the same `while hand_value > 21 and aces:` loop as GameSession.hand_value,
sets `is_soft = aces > 0 and hand_value <= 21`,
`is_pair = len == 2 and equal ranks`, and branches: pairs first, then soft
totals, then hard totals. -/

/-- `aces > 0 and hand_value <= 21` after the adjustment loop. -/
def advisor_soft (cards : List Card) : Bool :=
  let p := adjustLoop (totalValue cards) (aceCount cards)
  decide (0 < p.2) && decide (p.1 ≤ 21)

/-- `len(player_hand) == 2 and player_hand[0].rank == player_hand[1].rank`. -/
def is_pair_hand : List Card → Bool
  | [c1, c2] => decide (c1.rank = c2.rank)
  | _ => false

/-- `player_hand[0].rank`; read only under `is_pair_hand`, whose truth
guarantees a first card (the r2 default is never reached then). -/
def headRank : List Card → Rank
  | c :: _ => c.rank
  | [] => Rank.r2

/-- The pairs table (players.py lines 474-517).  Every rank has a branch, so
the Python `if is_pair:` block always returns. -/
def pairMove (pair_rank : Rank) (dealer_value : Nat) (hand_len : Nat) : String :=
  if pair_rank = Rank.A ∨ pair_rank = Rank.r8 then "split"
  else if pair_rank = Rank.r10 ∨ pair_rank = Rank.J ∨ pair_rank = Rank.Q ∨
      pair_rank = Rank.K then "stand"
  else if pair_rank = Rank.r9 then
    if [2, 3, 4, 5, 6, 8, 9].contains dealer_value then "split" else "stand"
  else if pair_rank = Rank.r7 then
    if [2, 3, 4, 5, 6, 7].contains dealer_value then "split" else "hit"
  else if pair_rank = Rank.r6 then
    if [2, 3, 4, 5, 6].contains dealer_value then "split" else "hit"
  else if pair_rank = Rank.r5 then
    if [2, 3, 4, 5, 6, 7, 8, 9].contains dealer_value ∧ hand_len = 2
    then "double" else "hit"
  else if pair_rank = Rank.r4 then
    if [5, 6].contains dealer_value then "split" else "hit"
  else -- pair_rank is 3 or 2
    if [2, 3, 4, 5, 6, 7].contains dealer_value then "split" else "hit"

/-- The soft-totals table (players.py lines 520-548). -/
def softMove (hv : Nat) (dealer_value : Nat) (hand_len : Nat) : String :=
  if 19 ≤ hv then "stand"
  else if hv = 18 then
    if [2, 3, 4, 5, 6, 7, 8].contains dealer_value then "stand" else "hit"
  else if hv = 17 then
    if [3, 4, 5, 6].contains dealer_value ∧ hand_len = 2 then "double" else "hit"
  else if hv = 16 ∨ hv = 15 then
    if [4, 5, 6].contains dealer_value ∧ hand_len = 2 then "double" else "hit"
  else if hv = 14 ∨ hv = 13 then
    if [5, 6].contains dealer_value ∧ hand_len = 2 then "double" else "hit"
  else "hit"

/-- The hard-totals table (players.py lines 551-584). -/
def hardMove (hv : Nat) (dealer_value : Nat) (hand_len : Nat) : String :=
  if 17 ≤ hv then "stand"
  else if 13 ≤ hv ∧ hv ≤ 16 then
    if [2, 3, 4, 5, 6].contains dealer_value then "stand" else "hit"
  else if hv = 12 then
    if [4, 5, 6].contains dealer_value then "stand" else "hit"
  else if hv = 11 then
    if hand_len = 2 then "double" else "hit"
  else if hv = 10 then
    if [2, 3, 4, 5, 6, 7, 8, 9].contains dealer_value ∧ hand_len = 2
    then "double" else "hit"
  else if hv = 9 then
    if [3, 4, 5, 6].contains dealer_value ∧ hand_len = 2 then "double" else "hit"
  else "hit"

/-- get_basic_strategy_move (src/game/players.py lines 445-584). -/
def get_basic_strategy_move (player_hand : List Card) (dealer_upcard : Card) :
    String :=
  if is_pair_hand player_hand then
    pairMove (headRank player_hand) dealer_upcard.value player_hand.length
  else if advisor_soft player_hand then
    softMove (hand_value player_hand) dealer_upcard.value player_hand.length
  else
    hardMove (hand_value player_hand) dealer_upcard.value player_hand.length

/-- The hand 8♥ 8♠ and the upcard Q♦ used against C9. -/
def pairEights : List Card :=
  [Card.mk Suit.Hearts Rank.r8, Card.mk Suit.Spades Rank.r8]

/-- C9 counterexample: 8♥ 8♠ is a hard 16 (value 16, not soft) and Q♦ a
dealer upcard of value 10, yet the advisor answers "split", not "hit" —
the pairs table takes precedence over the hard-16 row. -/
theorem hard16_vs_ten_not_always_hit :
    hand_value pairEights = 16 ∧ advisor_soft pairEights = false ∧
    (Card.mk Suit.Diamonds Rank.Q).value = 10 ∧
    get_basic_strategy_move pairEights (Card.mk Suit.Diamonds Rank.Q) = "split" ∧
    get_basic_strategy_move pairEights (Card.mk Suit.Diamonds Rank.Q) ≠ "hit" := by
  refine ⟨rfl, rfl, rfl, rfl, ?_⟩
  decide

/-- The advisor never reads a suit: two-card calls reduce to the ranks. -/
theorem gbsm_suits (s1 s2 s3 : Suit) (a b c : Rank) :
    get_basic_strategy_move [Card.mk s1 a, Card.mk s2 b] (Card.mk s3 c) =
    get_basic_strategy_move [Card.mk Suit.Hearts a, Card.mk Suit.Hearts b]
      (Card.mk Suit.Hearts c) := rfl

/-- hand_value never reads a suit (two-card hands). -/
theorem hand_value_suits (s1 s2 : Suit) (a b : Rank) :
    hand_value [Card.mk s1 a, Card.mk s2 b] =
    hand_value [Card.mk Suit.Hearts a, Card.mk Suit.Hearts b] := rfl

/-- advisor_soft never reads a suit (two-card hands). -/
theorem advisor_soft_suits (s1 s2 : Suit) (a b : Rank) :
    advisor_soft [Card.mk s1 a, Card.mk s2 b] =
    advisor_soft [Card.mk Suit.Hearts a, Card.mk Suit.Hearts b] := rfl

/-- is_pair_hand never reads a suit (two-card hands). -/
theorem is_pair_hand_suits (s1 s2 : Suit) (a b : Rank) :
    is_pair_hand [Card.mk s1 a, Card.mk s2 b] =
    is_pair_hand [Card.mk Suit.Hearts a, Card.mk Suit.Hearts b] := rfl

/-- C9 as amended: the advisor returns "hit" for every non-pair hard-16
hand against a dealer upcard of value 10; "double" for every 2-card hard-11
hand against any upcard; "split" for a pair of aces against any upcard; and
"hit" for every soft-18 hand against a dealer 9.  (The embedding is a pure
function, so repeated calls with equal inputs trivially agree and nothing
is mutated.) -/
theorem basic_strategy_spec_rows :
    (∀ (hand : List Card) (up : Card), is_pair_hand hand = false →
      hand_value hand = 16 → advisor_soft hand = false → up.value = 10 →
      get_basic_strategy_move hand up = "hit") ∧
    (∀ (c1 c2 up : Card), hand_value [c1, c2] = 11 →
      advisor_soft [c1, c2] = false →
      get_basic_strategy_move [c1, c2] up = "double") ∧
    (∀ (s1 s2 : Suit) (up : Card),
      get_basic_strategy_move [Card.mk s1 Rank.A, Card.mk s2 Rank.A] up =
        "split") ∧
    (∀ (hand : List Card) (up : Card), hand_value hand = 18 →
      advisor_soft hand = true → up.value = 9 →
      get_basic_strategy_move hand up = "hit") := by
  refine ⟨?_, ?_, ?_, ?_⟩
  · intro hand up hpair hv hsoft hup
    simp [get_basic_strategy_move, hpair, hsoft, hv, hup, hardMove]
  · intro c1 c2 up hv hsoft
    obtain ⟨su1, a⟩ := c1
    obtain ⟨su2, b⟩ := c2
    obtain ⟨su3, c⟩ := up
    rw [hand_value_suits] at hv
    rw [advisor_soft_suits] at hsoft
    rw [gbsm_suits]
    revert hv hsoft
    revert a b c
    decide
  · intro s1 s2 up
    simp [get_basic_strategy_move, is_pair_hand, headRank, pairMove]
  · intro hand up hv hsoft hup
    have hpair : is_pair_hand hand = false := by
      match hand with
      | [] => rfl
      | [c] => rfl
      | c1 :: c2 :: c3 :: t => rfl
      | [c1, c2] =>
        obtain ⟨su1, a⟩ := c1
        obtain ⟨su2, b⟩ := c2
        rw [hand_value_suits] at hv
        rw [advisor_soft_suits] at hsoft
        rw [is_pair_hand_suits]
        revert hv hsoft
        revert a b
        decide
    simp [get_basic_strategy_move, hpair, hsoft, hv, hup, softMove]

/-- Witness for C9's amended theorem at concrete hands: 10♥ 6♠ vs Q♦ hits,
5♥ 6♦ vs 2♣ doubles, A♥ A♦ vs 5♥ splits, A♠ 7♥ vs 9♦ hits. -/
theorem basic_strategy_spec_rows_witness :
    get_basic_strategy_move
      [Card.mk Suit.Hearts Rank.r10, Card.mk Suit.Spades Rank.r6]
      (Card.mk Suit.Diamonds Rank.Q) = "hit" ∧
    get_basic_strategy_move
      [Card.mk Suit.Hearts Rank.r5, Card.mk Suit.Diamonds Rank.r6]
      (Card.mk Suit.Clubs Rank.r2) = "double" ∧
    get_basic_strategy_move
      [Card.mk Suit.Hearts Rank.A, Card.mk Suit.Diamonds Rank.A]
      (Card.mk Suit.Hearts Rank.r5) = "split" ∧
    get_basic_strategy_move
      [Card.mk Suit.Spades Rank.A, Card.mk Suit.Hearts Rank.r7]
      (Card.mk Suit.Diamonds Rank.r9) = "hit" :=
  ⟨basic_strategy_spec_rows.1
      [Card.mk Suit.Hearts Rank.r10, Card.mk Suit.Spades Rank.r6]
      (Card.mk Suit.Diamonds Rank.Q) rfl rfl rfl rfl,
   basic_strategy_spec_rows.2.1
      (Card.mk Suit.Hearts Rank.r5) (Card.mk Suit.Diamonds Rank.r6)
      (Card.mk Suit.Clubs Rank.r2) rfl rfl,
   basic_strategy_spec_rows.2.2.1 Suit.Hearts Suit.Diamonds
      (Card.mk Suit.Hearts Rank.r5),
   basic_strategy_spec_rows.2.2.2
      [Card.mk Suit.Spades Rank.A, Card.mk Suit.Hearts Rank.r7]
      (Card.mk Suit.Diamonds Rank.r9) rfl rfl rfl⟩

/-- C5: on the hand 10♥ A♠ A♦, Hand.is_soft answers true (its test
`non-ace total + 11 ≤ 21` ignores how many aces there are), while the
specified condition — at least one ace and all-aces-as-one total plus 10
at most 21, the very test of GameSession.is_soft_hand and of the dealer's
`_is_soft_hand` — is false: 10 + 2 + 10 = 22 > 21, and indeed the optimal
valuation 12 counts no ace as 11. -/
theorem isSoft_disagrees_with_spec_on_ten_ace_ace :
    Hand.is_soft tenAceAce = true ∧ is_soft_hand tenAceAce = false ∧
    hand_value tenAceAce = 12 := by
  refine ⟨rfl, rfl, rfl⟩

/-! ## Rule configuration and house edge (src/game/game_session.py, Table)

A table's `rules` dict maps option names to values; a key may be absent,
in which case each `rules.get(key, default)` call supplies its own
default.  The dict is modelled as a structure of Options, `none` for an
absent key. -/

structure Rules where
  number_of_decks : Option Nat := none
  blackjack_payout : Option String := none
  dealer_hits_soft_17 : Option Bool := none
  allow_double_down : Option Bool := none
  allow_double_after_split : Option Bool := none
  allow_split : Option Bool := none
  resplit_aces : Option Bool := none
  allow_surrender : Option Bool := none
  deck_penetration : Option ℚ := none
  dealer_peek : Option Bool := none
  insurance_pays : Option String := none

/-- A rules dict with every key absent: every read falls to its default. -/
def empty_rules : Rules := {}

/-- `self.rules.get("number_of_decks", 6)` as the house-edge estimator
reads it (game_session.py line 70). -/
def edge_number_of_decks (rules : Rules) : Nat :=
  rules.number_of_decks.getD 6

/-- DEFAULT_SETTINGS['GAME_SETTINGS']['MAX_DECKS'] (src/game/settings.py
line 10). -/
def GAME_SETTINGS_MAX_DECKS : Nat := 8

/-- `table.rules.get("number_of_decks", GAME_SETTINGS.get('MAX_DECKS', 6))`
as GameSession.__init__ reads it to build the shoe (game_session.py
line 262), with GAME_SETTINGS at its shipped defaults. -/
def session_number_of_decks (rules : Rules) : Nat :=
  rules.number_of_decks.getD GAME_SETTINGS_MAX_DECKS

/-- Table.calculate_house_edge (src/game/game_session.py lines 59-115),
Python floats as exact rationals: base 0.5, additive adjustments keyed to
each rule, one final clamp to [0.1, 5.0]. -/
def calculate_house_edge (rules : Rules) : ℚ :=
  let base : ℚ := 1/2
  let decks := edge_number_of_decks rules
  let e1 : ℚ :=
    if decks = 1 then base - 1/4
    else if decks = 2 then base - 1/5
    else if 6 < decks then base + (1/50) * ((decks : ℚ) - 6)
    else base
  let payout := rules.blackjack_payout.getD "3:2"
  let e2 := if payout = "6:5" then e1 + 7/5
            else if payout = "1:1" then e1 + 23/10 else e1
  let e3 := if rules.dealer_hits_soft_17.getD false = true then e2 + 1/5 else e2
  let e4 := if rules.allow_double_down.getD true = false then e3 + 1/5 else e3
  let e5 := if rules.allow_double_after_split.getD true = false then e4 + 7/50
            else e4
  let e6 := if rules.allow_split.getD true = false then e5 + 2/5 else e5
  let e7 := if rules.resplit_aces.getD false = false then e6 + 2/25 else e6
  let e8 := if rules.allow_surrender.getD false = true then e7 - 2/25 else e7
  let pen := rules.deck_penetration.getD (3/4)
  let e9 := if 4/5 < pen then e8 - 1/10
            else if pen < 1/2 then e8 + 1/10 else e8
  let e10 := if rules.dealer_peek.getD true = false then e9 + 1/10 else e9
  let e11 := if rules.insurance_pays.getD "2:1" ≠ "2:1" then e10 + 1/10 else e10
  max (1/10) (min e11 5)

/-- C2 counterexample: with every rule key absent the estimator does not
return 0.5 — `resplit_aces` defaults to false, so the +0.08 no-resplit
adjustment fires even in the default configuration. -/
theorem default_house_edge_not_half :
    calculate_house_edge empty_rules ≠ 1/2 := by
  simp only [calculate_house_edge, edge_number_of_decks, empty_rules]
  simp only [String.reduceEq, if_false, if_true, reduceIte, Option.getD_none,
    Option.getD_some]
  norm_num [max_def, min_def]

/-- C2 as amended: under exact rational arithmetic the default
configuration yields 0.58 (base 0.5 plus 0.08 for no resplitting of aces,
which the default `resplit_aces = false` triggers); overriding only the
payout to "6:5" yields 1.98; overriding only the deck count to 1 yields
0.33. -/
theorem house_edge_values :
    calculate_house_edge empty_rules = 29/50 ∧
    calculate_house_edge { blackjack_payout := some "6:5" } = 99/50 ∧
    calculate_house_edge { number_of_decks := some 1 } = 33/100 := by
  refine ⟨?_, ?_, ?_⟩ <;>
  · simp only [calculate_house_edge, edge_number_of_decks, empty_rules]
    simp only [String.reduceEq, if_false, if_true, reduceIte, Option.getD_none,
      Option.getD_some]
    norm_num [max_def, min_def]

/-- C8 counterexample: with the "number_of_decks" key absent, GameSession
builds an 8-deck shoe (its fallback is GAME_SETTINGS['MAX_DECKS'] = 8)
while the house-edge estimator assumes 6 decks. -/
theorem deck_count_defaults_disagree :
    session_number_of_decks empty_rules = 8 ∧
    edge_number_of_decks empty_rules = 6 ∧
    session_number_of_decks empty_rules ≠ edge_number_of_decks empty_rules := by
  refine ⟨rfl, rfl, ?_⟩
  decide

/-- C8 as amended: whenever the rules mapping carries the
"number_of_decks" key both readers agree on its value; when the key is
absent they fall to different defaults, 8 for the shoe and 6 for the
estimator. -/
theorem deck_count_agreement :
    (∀ (rules : Rules) (n : Nat), rules.number_of_decks = some n →
      session_number_of_decks rules = n ∧ edge_number_of_decks rules = n) ∧
    session_number_of_decks empty_rules = 8 ∧
    edge_number_of_decks empty_rules = 6 := by
  refine ⟨?_, rfl, rfl⟩
  intro rules n h
  constructor
  · simp [session_number_of_decks, h]
  · simp [edge_number_of_decks, h]

/-- Witness for C8's amended theorem: with number_of_decks set to 2 both
the shoe and the estimator read 2 decks. -/
theorem deck_count_agreement_witness :
    session_number_of_decks { number_of_decks := some 2 } = 2 ∧
    edge_number_of_decks { number_of_decks := some 2 } = 2 :=
  deck_count_agreement.1 { number_of_decks := some 2 } 2 rfl

/-! ## Round resolution (src/game/game_session.py, GameSession.play and
compare_hands)

`get_bet` deducts the stake from the bankroll as soon as the bet is
accepted (`self.profile.bankroll -= bet`), so every payout below is
relative to the post-bet balance. -/

/-- How GameSession.play's blackjack check ends (lines 458-510): dealer
blackjack pushes or wins at once; a lone player blackjack is paid at once;
otherwise the round continues into the player turn. -/
inductive BJOutcome
  | dealerBJPush
  | dealerBJLoss
  | playerBJWin
  | continueRound
deriving DecidableEq

/-- The blackjack-payout expression of play (lines 494-497):
1.5 × bet for "3:2", otherwise 1.2 × bet (the code comments `# Assume
6:5` — every non-"3:2" setting, "1:1" included, lands here). -/
def blackjack_payout_amount (payout : String) (bet : ℚ) : ℚ :=
  if payout = "3:2" then bet * (3/2) else bet * (6/5)

/-- GameSession.play lines 458-510 after the initial deal: the dealer's
hand is [upcard, hole]; the dealer is checked for blackjack only behind an
upcard of value 10 or 11; a lone player blackjack is credited
`bet + payout` on the post-bet bankroll and the round ends. -/
def resolve_blackjacks (payout : String) (player_hand : List Card)
    (upcard hole : Card) (bet bankroll : ℚ) : BJOutcome × ℚ :=
  let player_blackjack := check_blackjack player_hand
  if (upcard.value = 10 ∨ upcard.value = 11) ∧
      check_blackjack [upcard, hole] = true then
    if player_blackjack then (BJOutcome.dealerBJPush, bankroll + bet)
    else (BJOutcome.dealerBJLoss, bankroll)
  else if player_blackjack then
    (BJOutcome.playerBJWin,
     bankroll + (bet + blackjack_payout_amount payout bet))
  else (BJOutcome.continueRound, bankroll)

/-- C6 counterexample: at a "1:1" table, a player blackjack (A♠ K♥ against
dealer 9♥ with hole 5♦, no dealer blackjack) on a bet of 10 from a
post-bet bankroll of 100 leaves 122 — the code pays 1.2 × bet — not the
120 the claim's 1.0 × bet ratio for "1:1" would give. -/
theorem one_to_one_blackjack_pays_six_fifths :
    (resolve_blackjacks "1:1"
      [Card.mk Suit.Spades Rank.A, Card.mk Suit.Hearts Rank.K]
      (Card.mk Suit.Hearts Rank.r9) (Card.mk Suit.Diamonds Rank.r5)
      10 100).2 = 122 ∧
    (resolve_blackjacks "1:1"
      [Card.mk Suit.Spades Rank.A, Card.mk Suit.Hearts Rank.K]
      (Card.mk Suit.Hearts Rank.r9) (Card.mk Suit.Diamonds Rank.r5)
      10 100).2 ≠ 100 + (10 + 10 * 1) := by
  constructor
  · show (100 : ℚ) + (10 + 10 * (6/5)) = 122
    norm_num
  · show (100 : ℚ) + (10 + 10 * (6/5)) ≠ 100 + (10 + 10 * 1)
    norm_num

/-- C6 as amended: whenever the player holds a blackjack and the dealer
does not, the round ends at once with the player-blackjack outcome and the
post-bet bankroll grows by the stake plus 1.5 × bet when the configured
payout is "3:2" and by the stake plus 1.2 × bet for every other setting,
"6:5" and "1:1" alike. -/
theorem player_blackjack_payout (payout : String) (player_hand : List Card)
    (upcard hole : Card) (bet bankroll : ℚ)
    (hp : check_blackjack player_hand = true)
    (hd : check_blackjack [upcard, hole] = false) :
    resolve_blackjacks payout player_hand upcard hole bet bankroll =
      (BJOutcome.playerBJWin,
       bankroll +
         (bet + if payout = "3:2" then bet * (3/2) else bet * (6/5))) := by
  unfold resolve_blackjacks blackjack_payout_amount
  rw [hd]
  simp [hp]

/-- Witness for C6's amended theorem: A♠ K♥ against a dealer 9♥/5♦ at a
"3:2" table, bet 20 on a post-bet bankroll of 80, ends the round paid
80 + 20 + 30 = 130. -/
theorem player_blackjack_payout_witness :
    resolve_blackjacks "3:2"
      [Card.mk Suit.Spades Rank.A, Card.mk Suit.Hearts Rank.K]
      (Card.mk Suit.Hearts Rank.r9) (Card.mk Suit.Diamonds Rank.r5)
      20 80 =
      (BJOutcome.playerBJWin, 80 + (20 + if ("3:2" : String) = "3:2"
        then 20 * (3/2) else 20 * (6/5))) :=
  player_blackjack_payout "3:2"
    [Card.mk Suit.Spades Rank.A, Card.mk Suit.Hearts Rank.K]
    (Card.mk Suit.Hearts Rank.r9) (Card.mk Suit.Diamonds Rank.r5)
    20 80 rfl rfl

/-- How GameSession.compare_hands classifies a settled hand. -/
inductive HandResult
  | bust
  | win
  | lose
  | push
deriving DecidableEq

/-- GameSession.compare_hands (src/game/game_session.py lines 728-767),
acting on the post-bet bankroll: a busted player keeps nothing (the stake
left at bet time), a dealer bust or higher player total credits 2 × bet,
a dealer win credits nothing, a push returns the stake. -/
def compare_hands (player_hand dealer_hand : List Card) (bet bankroll : ℚ) :
    HandResult × ℚ :=
  let player_value := hand_value player_hand
  let dealer_value := hand_value dealer_hand
  if 21 < player_value then (HandResult.bust, bankroll)
  else if 21 < dealer_value then (HandResult.win, bankroll + bet * 2)
  else if dealer_value < player_value then (HandResult.win, bankroll + bet * 2)
  else if player_value < dealer_value then (HandResult.lose, bankroll)
  else (HandResult.push, bankroll + bet)

/-- The hands 10♥ 10♠ (total 20) and 10♦ 9♦ (total 19). -/
def twentyHand : List Card :=
  [Card.mk Suit.Hearts Rank.r10, Card.mk Suit.Spades Rank.r10]

def nineteenHand : List Card :=
  [Card.mk Suit.Diamonds Rank.r10, Card.mk Suit.Diamonds Rank.r9]

/-- C7 counterexample: from a pre-bet bankroll of 100 and a bet of 10
(deducted by get_bet), winning 20 against 19 settles at 110 = pre-bet +
bet, not the pre-bet + 2 × bet = 120 the claim states. -/
theorem win_pays_bet_not_double_over_prebet :
    (compare_hands twentyHand nineteenHand 10 (100 - 10)).2 = 110 ∧
    (compare_hands twentyHand nineteenHand 10 (100 - 10)).2 ≠ 100 + 2 * 10 := by
  constructor
  · show (100 : ℚ) - 10 + 10 * 2 = 110
    norm_num
  · show (100 : ℚ) - 10 + 10 * 2 ≠ 100 + 2 * 10
    norm_num

/-- C7 as amended: in a settled round with one unbusted hand, a player 20
against a dealer 19 wins and leaves the bankroll one bet above the pre-bet
balance (the 2 × bet credit lands on the post-bet balance); equal totals
of 20 push and restore exactly the pre-bet balance. -/
theorem settlement_win_and_push (player_hand dealer_hand : List Card)
    (bet bankroll : ℚ) (hp : hand_value player_hand = 20) :
    (hand_value dealer_hand = 19 →
      compare_hands player_hand dealer_hand bet (bankroll - bet) =
        (HandResult.win, bankroll + bet)) ∧
    (hand_value dealer_hand = 20 →
      compare_hands player_hand dealer_hand bet (bankroll - bet) =
        (HandResult.push, bankroll)) := by
  constructor
  · intro hd
    unfold compare_hands
    rw [hp, hd]
    norm_num
    ring
  · intro hd
    unfold compare_hands
    rw [hp, hd]
    norm_num

/-- Witness for C7's amended theorem: bankroll 100, bet 10; 10♥ 10♠
against 10♦ 9♦ wins to 110, and against 10♣ Q♣ pushes back to 100. -/
theorem settlement_win_and_push_witness :
    compare_hands twentyHand nineteenHand 10 (100 - 10) =
      (HandResult.win, 100 + 10) ∧
    compare_hands twentyHand
      [Card.mk Suit.Clubs Rank.r10, Card.mk Suit.Clubs Rank.Q] 10 (100 - 10) =
      (HandResult.push, 100) :=
  ⟨(settlement_win_and_push twentyHand nineteenHand 10 100 rfl).1 rfl,
   (settlement_win_and_push twentyHand
      [Card.mk Suit.Clubs Rank.r10, Card.mk Suit.Clubs Rank.Q] 10 100 rfl).2
      rfl⟩

end AceInvaders
